import Mathlib

/-!
Verification of the Crow_01 HTTPS demo server (src/Crow_01/Crow_01.cpp).

The program registers two routes on a crow::SimpleApp, points the TLS layer
at fixed certificate and key files, and runs a multithreaded server on a
fixed port.  We embed the original (non-vendored) logic shallowly:

* the body of each handler lambda becomes an effect trace (a console write
  followed by returning a string body);
* the statement sequence of `main` becomes a list of startup steps folded
  into an application state;
* request dispatch becomes a lookup in the registered route list followed by
  execution of the matched handler trace against the process-wide standard
  output stream, which is the only mutable state;
* the framework's `run()` (crow.h, which is not under src/) is modelled from
  the spec as a function that can fail on certificate, key or bind errors.
-/

namespace Crow01

/-- HTTP methods, the subset of crow::HTTPMethod relevant here plus others
for generality. -/
inductive HTTPMethod where
  | Get
  | Post
  | Put
  | Delete
  | Head
  | Options
  | Patch
  deriving DecidableEq, BEq, Repr

/-- An incoming HTTP request: method, path, and the parts the handlers could
in principle inspect (headers, query string, body). -/
structure Request where
  method : HTTPMethod
  path : String
  headers : List (String × String)
  queryString : String
  body : String
  deriving DecidableEq, Repr

/-- One write to standard output: the text, whether a newline is appended and
whether the stream is flushed.  The source writes with std::endl, which does
both. -/
structure ConsoleWrite where
  text : String
  newline : Bool
  flush : Bool
  deriving DecidableEq, BEq, Repr

/-- An HTTP response: status code and body. -/
structure Response where
  code : Nat
  body : String
  deriving DecidableEq, Repr

/-- One step of a handler body: either a console write or returning the
response body (ending execution of the handler). -/
inductive HandlerEffect where
  | consoleWrite (w : ConsoleWrite)
  | returnBody (b : String)
  deriving DecidableEq, BEq, Repr

/-- The console write performed by the GET / handler lambda
(`std::cout << "Received and responded with 'Succesful'" << std::endl`). -/
def getWrite : ConsoleWrite :=
  ⟨"Received and responded with \x27Succesful\x27", true, true⟩

/-- The console write performed by the POST / handler lambda
(`std::cout << "POST Request received and responded" << std::endl`). -/
def postWrite : ConsoleWrite :=
  ⟨"POST Request received and responded", true, true⟩

/-- Statement-by-statement trace of the GET / handler lambda body: log line,
then return "Successful".  The lambda has an empty capture list and takes no
parameters, so the trace is a constant. -/
def getRootTrace : List HandlerEffect :=
  [.consoleWrite getWrite, .returnBody "Successful"]

/-- Statement-by-statement trace of the POST / handler lambda body: log line,
then return "Test".  The lambda has an empty capture list and takes no
parameters, so the trace is a constant. -/
def postRootTrace : List HandlerEffect :=
  [.consoleWrite postWrite, .returnBody "Test"]

/-- A registered route: method, path and the handler body trace. -/
structure RouteEntry where
  method : HTTPMethod
  path : String
  handler : List HandlerEffect
  deriving DecidableEq, Repr

/-- The application state built by `main` before `run()` is called: the route
table in registration order and the configured TLS file paths and port. -/
structure App where
  routes : List RouteEntry
  certFile : Option String
  keyFile : Option String
  tcpPort : Option Nat
  deriving DecidableEq, Repr

/-- One statement of `main` acting on the app. -/
inductive StartupStep where
  | registerRoute (m : HTTPMethod) (p : String) (h : List HandlerEffect)
  | ssl_file (cert key : String)
  | setPort (p : Nat)
  | multithreaded
  | run
  deriving DecidableEq, Repr

/-- Effect of one startup statement on the app state.  Route registration
appends to the route table; `ssl_file` and `port` set the TLS paths and the
port; `multithreaded` and `run` do not change the configuration. -/
def applyStep (a : App) : StartupStep → App
  | .registerRoute m p h => { a with routes := a.routes ++ [⟨m, p, h⟩] }
  | .ssl_file c k => { a with certFile := some c, keyFile := some k }
  | .setPort p => { a with tcpPort := some p }
  | .multithreaded => a
  | .run => a

/-- The freshly constructed crow::SimpleApp: no routes, no TLS files, no
port configured. -/
def initialApp : App :=
  ⟨[], none, none, none⟩

/-- Fold a statement sequence into an app state. -/
def configure (steps : List StartupStep) : App :=
  steps.foldl applyStep initialApp

/-- The statement sequence of `main` in source order:
register GET /, register POST /, ssl_file, port(18080), multithreaded, run. -/
def mainSteps : List StartupStep :=
  [ .registerRoute .Get "/" getRootTrace
  , .registerRoute .Post "/" postRootTrace
  , .ssl_file "ssl/cert.pem" "ssl/key.pem"
  , .setPort 18080
  , .multithreaded
  , .run ]

/-- `main` has signature `int main()` and reads no environment variable, so
its statement sequence is the same for every argument vector and
environment. -/
def mainStepsOf (args : List String) (envVars : List (String × String)) :
    List StartupStep :=
  mainSteps

/-- The startup statements preceding the `run()` call. -/
def stepsBeforeRun (steps : List StartupStep) : List StartupStep :=
  steps.takeWhile fun s =>
    match s with
    | .run => false
    | _ => true

/-- The app state at the moment `run()` is invoked. -/
def appAtRun : App :=
  configure (stepsBeforeRun mainSteps)

/-- The app state at the moment `run()` is invoked, as a function of the
argument vector and environment (which `main` ignores). -/
def appAtRunOf (args : List String) (envVars : List (String × String)) : App :=
  configure (stepsBeforeRun (mainStepsOf args envVars))

/-- Execute a handler trace against the current standard-output stream.
A console write appends to the stream; `returnBody` ends execution, yielding
the stream as it stands at that moment together with the body. -/
def execTrace (out : List ConsoleWrite) :
    List HandlerEffect → List ConsoleWrite × Option String
  | [] => (out, none)
  | .consoleWrite w :: rest => execTrace (out ++ [w]) rest
  | .returnBody b :: _ => (out, some b)

/-- Modelled from the spec: crow.h (not under src/) converts a handler that
returns a plain string into a response with the default success status 200. -/
def responseOfString (s : String) : Response :=
  ⟨200, s⟩

/-- Route lookup: the first registered entry whose method and path match. -/
def findRoute (a : App) (m : HTTPMethod) (p : String) : Option RouteEntry :=
  a.routes.find? fun e => e.method == m && e.path == p

/-- The mutable state shared between requests: only the process-wide
standard-output stream. -/
structure ServerState where
  stdout : List ConsoleWrite
  deriving DecidableEq, Repr

/-- Handle one request: dispatch on method and path; on a match, run the
handler trace against standard output and wrap the returned body.  A request
matching no route gets the not-found response (modelled from the spec: the
framework default, crow.h is not under src/). -/
def handleRequest (a : App) (s : ServerState) (r : Request) :
    ServerState × Response :=
  match findRoute a r.method r.path with
  | some e =>
      let p := execTrace s.stdout e.handler
      (⟨p.1⟩, responseOfString (p.2.getD ""))
  | none => (s, ⟨404, "Not Found"⟩)

/-- A startup failure as described by the spec: unreadable certificate file,
unreadable key file, or a port bind failure. -/
inductive StartupError where
  | certUnreadable
  | keyUnreadable
  | bindFailed
  deriving DecidableEq, Repr

/-- Environment facts that decide whether startup succeeds: whether the
certificate file is readable and well formed, likewise the key file, and
whether the port can be bound. -/
structure RunEnv where
  certOk : Bool
  keyOk : Bool
  bindOk : Bool
  deriving DecidableEq, Repr

/-- A running listener that accepts connections, produced only when startup
succeeds. -/
structure Listener where
  port : Nat
  deriving DecidableEq, Repr

/-- Modelled from the spec: the framework's `run()` (crow.h, not under src/)
loads the certificate, loads the key, binds the port, and only then serves;
failure of any of these propagates as an error and no running listener is
produced.  A returned listener means the blocking loop started and later
returned. -/
def runServer (a : App) (e : RunEnv) : Except StartupError Listener :=
  if e.certOk = false then .error .certUnreadable
  else if e.keyOk = false then .error .keyUnreadable
  else if e.bindOk = false then .error .bindFailed
  else .ok ⟨a.tcpPort.getD 80⟩

/-- The whole of `main`: configure the app, call `run()` with no surrounding
try/catch, and `return 0` after `run()` returns.  An error from `run()` is
therefore `main`'s outcome; the only normal return yields exit code 0. -/
def mainExec (args : List String) (envVars : List (String × String))
    (e : RunEnv) : Except StartupError Nat :=
  match runServer (appAtRunOf args envVars) e with
  | .error err => .error err
  | .ok _ => .ok 0

/-- Executing a trace from any initial stream appends exactly what it appends
from the empty stream, and produces the same body: handler output does not
depend on what is already on standard output. -/
theorem execTrace_shift (t : List HandlerEffect) (out : List ConsoleWrite) :
    execTrace out t = (out ++ (execTrace [] t).1, (execTrace [] t).2) := by
  induction t generalizing out with
  | nil => simp [execTrace]
  | cons e rest ih =>
    cases e with
    | consoleWrite w =>
      simp only [execTrace, List.nil_append]
      rw [ih (out ++ [w]), ih [w]]
      simp [List.append_assoc]
    | returnBody b =>
      simp [execTrace]

/-- Handling a request only appends to standard output, and both the
appended writes and the response are independent of the prior stream. -/
theorem handleRequest_state (a : App) (s : ServerState) (r : Request) :
    (handleRequest a s r).1.stdout
        = s.stdout ++ (handleRequest a ⟨[]⟩ r).1.stdout
      ∧ (handleRequest a s r).2 = (handleRequest a ⟨[]⟩ r).2 := by
  unfold handleRequest
  cases h : findRoute a r.method r.path with
  | none => simp
  | some e =>
    simp only
    rw [execTrace_shift e.handler s.stdout, execTrace_shift e.handler []]
    simp

/-- C1: every GET request to path / gets exactly the literal body
"Successful" with the default success status 200, identically for every
header list, query string, request body and prior output stream; the
handler's log line is appended to standard output. -/
theorem c1_get_root_response (s : List ConsoleWrite)
    (hdrs : List (String × String)) (q b : String) :
    handleRequest appAtRun ⟨s⟩ ⟨.Get, "/", hdrs, q, b⟩
      = (⟨s ++ [getWrite]⟩, ⟨200, "Successful"⟩) := rfl

/-- C2: every POST request to path / gets exactly the literal body "Test"
with the default success status 200, identically for every header list,
query string, request body and prior output stream; the handler's log line
is appended to standard output. -/
theorem c2_post_root_response (s : List ConsoleWrite)
    (hdrs : List (String × String)) (q b : String) :
    handleRequest appAtRun ⟨s⟩ ⟨.Post, "/", hdrs, q, b⟩
      = (⟨s ++ [postWrite]⟩, ⟨200, "Test"⟩) := rfl

/-- C3: if the certificate file, the key file, or the port bind fails at
startup, the failure propagates out of main uncaught, as an error outcome
rather than a normal return, and no running listener is ever produced. -/
theorem c3_startup_failure_uncaught (args : List String)
    (envVars : List (String × String)) (e : RunEnv)
    (h : e.certOk = false ∨ e.keyOk = false ∨ e.bindOk = false) :
    (∃ err, mainExec args envVars e = .error err)
      ∧ ∀ l, runServer (appAtRunOf args envVars) e ≠ .ok l := by
  obtain ⟨c, k, bo⟩ := e
  cases c <;> cases k <;> cases bo <;> simp_all [mainExec, runServer]

/-- Witness for C3 at a concrete environment with an unreadable
certificate file. -/
theorem c3_startup_failure_uncaught_witness :
    (∃ err, mainExec [] [] ⟨false, true, true⟩ = .error err)
      ∧ ∀ l, runServer (appAtRunOf [] []) ⟨false, true, true⟩ ≠ .ok l :=
  c3_startup_failure_uncaught [] [] ⟨false, true, true⟩ (Or.inl rfl)

/-- C4: for every argument vector and environment, the configuration at the
moment run() is invoked is the same fixed constant: port 18080, certificate
file ssl/cert.pem, key file ssl/key.pem. -/
theorem c4_fixed_configuration (args : List String)
    (envVars : List (String × String)) :
    (appAtRunOf args envVars).tcpPort = some 18080
      ∧ (appAtRunOf args envVars).certFile = some "ssl/cert.pem"
      ∧ (appAtRunOf args envVars).keyFile = some "ssl/key.pem"
      ∧ appAtRunOf args envVars = appAtRun :=
  ⟨rfl, rfl, rfl, rfl⟩

/-- C5: the route table at the moment run() is invoked holds exactly the two
routes GET / and POST /; the steps after registration (ssl_file, setPort,
multithreaded, run) leave it unchanged; both registration steps occur
strictly before the run step in the startup sequence. -/
theorem c5_route_table_two_routes_before_run :
    appAtRun.routes = [⟨.Get, "/", getRootTrace⟩, ⟨.Post, "/", postRootTrace⟩]
      ∧ (configure mainSteps).routes = appAtRun.routes
      ∧ mainSteps = stepsBeforeRun mainSteps ++ [.run]
      ∧ StartupStep.registerRoute .Get "/" getRootTrace ∈ stepsBeforeRun mainSteps
      ∧ StartupStep.registerRoute .Post "/" postRootTrace ∈ stepsBeforeRun mainSteps := by
  refine ⟨rfl, rfl, rfl, ?_, ?_⟩ <;> simp [stepsBeforeRun, mainSteps]

/-- C6: for each handled request, the handler's log line is written to
standard output strictly before the body is produced: executing either
handler trace from any stream yields the body together with the stream to
which the log line has already been appended, and dispatching a GET / or
POST / request leaves that extended stream as the new standard output. -/
theorem c6_log_written_before_body (s : List ConsoleWrite)
    (hdrs : List (String × String)) (q b : String) :
    execTrace s getRootTrace = (s ++ [getWrite], some "Successful")
      ∧ execTrace s postRootTrace = (s ++ [postWrite], some "Test")
      ∧ (handleRequest appAtRun ⟨s⟩ ⟨.Get, "/", hdrs, q, b⟩).1.stdout
          = s ++ [getWrite]
      ∧ (handleRequest appAtRun ⟨s⟩ ⟨.Post, "/", hdrs, q, b⟩).1.stdout
          = s ++ [postWrite] :=
  ⟨rfl, rfl, rfl, rfl⟩

/-- C7: no cross-talk between requests: handling a request only appends to
standard output, and the response to any request is unchanged by having
handled any other request first. -/
theorem c7_requests_independent (s : ServerState) (r1 r2 : Request) :
    (handleRequest appAtRun (handleRequest appAtRun s r1).1 r2).2
        = (handleRequest appAtRun s r2).2
      ∧ ∃ ws, (handleRequest appAtRun s r1).1.stdout = s.stdout ++ ws := by
  refine ⟨?_, (handleRequest appAtRun ⟨[]⟩ r1).1.stdout,
    (handleRequest_state appAtRun s r1).1⟩
  rw [(handleRequest_state appAtRun (handleRequest appAtRun s r1).1 r2).2,
    (handleRequest_state appAtRun s r2).2]

/-- C8: main yields exit code 0 exactly when the blocking server loop
returns normally (having produced a running listener); no other path
through main produces exit code 0. -/
theorem c8_exit_zero_iff_run_returns (args : List String)
    (envVars : List (String × String)) (e : RunEnv) (c : Nat) :
    mainExec args envVars e = .ok c
      ↔ c = 0 ∧ ∃ l, runServer (appAtRunOf args envVars) e = .ok l := by
  unfold mainExec
  cases h : runServer (appAtRunOf args envVars) e <;> simp [h, eq_comm]

/-- C9: both handlers ignore the request entirely: for any two requests with
the same method and path, whatever their headers, query strings and bodies,
and whatever standard output already holds, the responses are identical. -/
theorem c9_response_ignores_request_data (m : HTTPMethod) (p : String)
    (s1 s2 : ServerState) (h1 h2 : List (String × String))
    (q1 q2 b1 b2 : String) :
    (handleRequest appAtRun s1 ⟨m, p, h1, q1, b1⟩).2
      = (handleRequest appAtRun s2 ⟨m, p, h2, q2, b2⟩).2 := by
  rw [(handleRequest_state appAtRun s1 ⟨m, p, h1, q1, b1⟩).2,
    (handleRequest_state appAtRun s2 ⟨m, p, h2, q2, b2⟩).2]
  rfl

/-- C10: the fixed log lines are exactly "Received and responded with
'Succesful'" for GET / (misspelled, unlike the response body "Successful")
and "POST Request received and responded" for POST /, each with a newline
and a flush (std::endl). -/
theorem c10_exact_log_lines (s : List ConsoleWrite)
    (hdrs : List (String × String)) (q b : String) :
    (handleRequest appAtRun ⟨s⟩ ⟨.Get, "/", hdrs, q, b⟩).1.stdout
        = s ++ [⟨"Received and responded with \x27Succesful\x27", true, true⟩]
      ∧ (handleRequest appAtRun ⟨s⟩ ⟨.Post, "/", hdrs, q, b⟩).1.stdout
        = s ++ [⟨"POST Request received and responded", true, true⟩]
      ∧ getWrite.newline = true ∧ getWrite.flush = true
      ∧ postWrite.newline = true ∧ postWrite.flush = true
      ∧ getWrite.text ≠ "Received and responded with \x27Successful\x27" := by
  refine ⟨rfl, rfl, rfl, rfl, rfl, rfl, ?_⟩
  decide

end Crow01
